import Mathlib

/-!
Shallow embedding of the form-payment-integration service
(src/server.js and src/api/webhook.js).

The two files contain the same webhook / session-creation logic
(src/server.js lines 27-139 and 142-202; src/api/webhook.js lines 36-158),
so a single embedding covers both.  External SDK calls (Stripe's
`constructEvent`, the Google Sheets append, the Stripe session creation)
are modelled as parameters: the handler's behaviour is a function of the
outcome of those calls, which is exactly what the code dispatches on.
-/

/-- A JavaScript value as it appears in the handlers: a string, a number,
`undefined`, or `null`.  Numbers are idealized as rationals; the source
uses IEEE-754 binary64, and no theorem below depends on float rounding. -/
inductive JsValue where
  | str (s : String)
  | num (q : Rat)
  | undefined
  | null
  deriving DecidableEq, Repr

/-- JavaScript truthiness, as used by `!x` / `x || ''` in the source:
the empty string, `0`, `undefined` and `null` are falsy. -/
def truthy : JsValue → Bool
  | .str s => decide (s ≠ "")
  | .num q => decide (q ≠ 0)
  | .undefined => false
  | .null => false

/-- JavaScript `x || ''` (src/server.js lines 178-184): keep `x` when
truthy, otherwise the empty string. -/
def jsOrEmpty (v : JsValue) : JsValue :=
  if truthy v then v else .str ""

/-- Property read `o[k]` on a JS object modelled as an association list:
the first binding wins, a missing key reads as `undefined`. -/
def jsLookup (o : List (String × JsValue)) (k : String) : JsValue :=
  match o.find? (fun p => decide (p.1 = k)) with
  | some p => p.2
  | none => .undefined

/-- Property write `o[k] = v` on a JS object: an existing key is updated
in place (JS keeps the original property position), a new key is appended. -/
def jsSet (o : List (String × JsValue)) (k : String) (v : JsValue) :
    List (String × JsValue) :=
  if o.any (fun p => decide (p.1 = k)) then
    o.map (fun p => if p.1 = k then (k, v) else p)
  else o ++ [(k, v)]

/-- Spreading a string-to-string mapping into a JS object
(`{...base, ...md}`): each entry is written in order with `jsSet`. -/
def applyMeta (base : List (String × JsValue)) (md : List (String × String)) :
    List (String × JsValue) :=
  md.foldl (fun o p => jsSet o p.1 (.str p.2)) base

/-- First value bound to `k` in a string-to-string mapping (JS property
read on the metadata object). -/
def lookupStr (md : List (String × String)) (k : String) : Option String :=
  (md.find? (fun p => decide (p.1 = k))).map (fun p => p.2)

/-- The `customer_details` structure of a checkout session; `email` may be
a string, `null`, or absent (`undefined`). -/
structure CustomerDetails where
  email : JsValue
  deriving DecidableEq, Repr

/-- The checkout-session object carried by a verified event
(`event.data.object`).  `metadata` and `customer_details` are `Option`s:
`none` models the property being absent/undefined, which matters because
the handler dereferences both without a guard. -/
structure CheckoutSession where
  metadata : Option (List (String × String))
  customer_details : Option CustomerDetails
  payment_intent : String
  amount_total : Int
  deriving DecidableEq, Repr

/-- The `data` wrapper of a Stripe event. -/
structure EventData where
  object : CheckoutSession
  deriving DecidableEq, Repr

/-- A verified Stripe event: a `type` discriminator and a payload. -/
structure StripeEvent where
  type : String
  data : EventData
  deriving DecidableEq, Repr

/-- The `formData` object built for a completed checkout session
(src/server.js lines 105-119, src/api/webhook.js lines 128-142):
`customerName` is pulled out of the metadata, the rest of the metadata is
spread over the six fixed fields, so a metadata key equal to a fixed field
name overrides it. -/
def mkFormData (md : List (String × String)) (cd : CustomerDetails)
    (session : CheckoutSession) (now : String) : List (String × JsValue) :=
  applyMeta
    [("name",
      match lookupStr md "customerName" with
      | some s => .str s
      | none => .undefined),
     ("email", cd.email),
     ("paymentStatus", .str "completed"),
     ("paymentId", .str session.payment_intent),
     ("paymentAmount", .num ((session.amount_total : Rat) / 100)),
     ("timestamp", .str now)]
    (md.filter (fun p => !(decide (p.1 = "customerName"))))

/-- Outcome of one webhook delivery: a 400 rejection with a text body, the
200 `{received:true}` acknowledgment, or an exception escaping the handler
(no response is produced by the handler's own code). -/
inductive WebhookOutcome where
  | rejected (body : String)
  | acknowledged
  | crashed
  deriving DecidableEq, Repr

/-- HTTP status produced by an outcome; `none` when the handler crashed
before responding. -/
def WebhookOutcome.statusCode : WebhookOutcome → Option Nat
  | .rejected _ => some 400
  | .acknowledged => some 200
  | .crashed => none

/-- The webhook handler (src/server.js lines 81-139, src/api/webhook.js
lines 98-158).  `verifyResult` is the outcome of
`stripe.webhooks.constructEvent` (an external SDK call); `sink` is the
Google-Sheets append, which may throw; `now` is `new Date().toISOString()`.
Returns the outcome together with the list of sink invocations.  Only the
sink call sits inside a `try`/`catch`; the metadata destructuring and the
`customer_details.email` access are unguarded, so their failure crashes
the handler. -/
def webhookHandler (verifyResult : Except String StripeEvent)
    (sink : List (String × JsValue) → Except String Unit) (now : String) :
    WebhookOutcome × List (List (String × JsValue)) :=
  match verifyResult with
  | .error errMsg => (.rejected ("Webhook Error: " ++ errMsg), [])
  | .ok event =>
    if event.type = "checkout.session.completed" then
      let session := event.data.object
      match session.metadata with
      | none => (.crashed, [])
      | some md =>
        match session.customer_details with
        | none => (.crashed, [])
        | some cd =>
          let formData := mkFormData md cd session now
          match sink formData with
          | .ok _ => (.acknowledged, [formData])
          | .error _ => (.acknowledged, [formData])
    else
      (.acknowledged, [])

/-- The positional row appended to the sheet (src/server.js lines 169-186,
src/api/webhook.js lines 63-80): six fixed fields followed by seven
hard-coded form fields, each defaulted to `''` when falsy. -/
def storeRow (formData : List (String × JsValue)) : List JsValue :=
  [jsLookup formData "timestamp",
   jsLookup formData "name",
   jsLookup formData "email",
   jsLookup formData "paymentStatus",
   jsLookup formData "paymentId",
   jsLookup formData "paymentAmount",
   jsOrEmpty (jsLookup formData "preferences"),
   jsOrEmpty (jsLookup formData "notes"),
   jsOrEmpty (jsLookup formData "age"),
   jsOrEmpty (jsLookup formData "primaryConcern"),
   jsOrEmpty (jsLookup formData "additionalConcerns"),
   jsOrEmpty (jsLookup formData "goals"),
   jsOrEmpty (jsLookup formData "photoCount")]

/-- Response of the session-creation endpoint. -/
inductive SessionResponse where
  | badRequest (error : String)
  | okUrl (checkoutUrl : String)
  | providerError (error : String)
  deriving DecidableEq, Repr

/-- HTTP status of a session-creation response. -/
def SessionResponse.statusCode : SessionResponse → Nat
  | .badRequest _ => 400
  | .okUrl _ => 200
  | .providerError _ => 500

/-- The `checkoutUrl` field of the response body, when present. -/
def SessionResponse.checkoutUrlField : SessionResponse → Option String
  | .okUrl u => some u
  | _ => none

/-- The `/create-checkout-session` endpoint (src/server.js lines 27-78).
Field validation uses JS truthiness (`!productName || !productPrice ||
!customerEmail`).  `provider` is the outcome of
`stripe.checkout.sessions.create` (the session's `url` on success, the
error message on failure, surfaced as 500 by the surrounding `catch`).
The second component records whether the provider was called. -/
def createCheckoutSession (productName productPrice customerEmail : JsValue)
    (provider : Except String String) : SessionResponse × Bool :=
  if !(truthy productName) || !(truthy productPrice) || !(truthy customerEmail) then
    (.badRequest
      "Missing required fields. Please provide productName, productPrice, and customerEmail.",
      false)
  else
    match provider with
    | .ok url => (.okUrl url, true)
    | .error msg => (.providerError msg, true)

/-- The seven metadata-derived columns of the sheet row: the metadata
value when present and truthy, otherwise the empty string. -/
def metaCol (md : List (String × String)) (k : String) : JsValue :=
  jsOrEmpty (match lookupStr md k with
    | some v => JsValue.str v
    | none => .undefined)

/-- The six fixed field names of the normalized record. -/
def fixedFieldNames : List String :=
  ["name", "email", "paymentStatus", "paymentId", "paymentAmount", "timestamp"]

theorem find?_map_update (o : List (String × JsValue)) (k : String) (v : JsValue) :
    (o.map (fun p => if p.1 = k then (k, v) else p)).find?
        (fun p => decide (p.1 = k)) =
      if o.any (fun p => decide (p.1 = k)) then some (k, v) else none := by
  induction o with
  | nil => simp
  | cons a o ih =>
    by_cases h : a.1 = k
    · simp [List.find?_cons, h]
    · rw [List.map_cons, List.find?_cons, List.any_cons, if_neg h,
        decide_eq_false h, Bool.false_or]
      exact ih

theorem find?_map_update_ne (o : List (String × JsValue)) (k1 k : String)
    (v : JsValue) (h : k ≠ k1) :
    (o.map (fun p => if p.1 = k1 then (k1, v) else p)).find?
        (fun p => decide (p.1 = k)) =
      o.find? (fun p => decide (p.1 = k)) := by
  induction o with
  | nil => simp
  | cons a o ih =>
    by_cases h1 : a.1 = k1
    · have h2 : ¬a.1 = k := fun e => h (e ▸ h1)
      rw [List.map_cons, List.find?_cons, List.find?_cons, if_pos h1]
      simp only [decide_eq_false h2, decide_eq_false (fun e => h e.symm : ¬k1 = k)]
      exact ih
    · rw [List.map_cons, List.find?_cons, List.find?_cons, if_neg h1]
      by_cases h2 : a.1 = k
      · simp only [decide_eq_true h2]
      · simp only [decide_eq_false h2]
        exact ih

theorem jsLookup_jsSet_self (o : List (String × JsValue)) (k : String)
    (v : JsValue) : jsLookup (jsSet o k v) k = v := by
  unfold jsSet jsLookup
  by_cases h : o.any (fun p => decide (p.1 = k))
  · rw [if_pos h, find?_map_update, if_pos h]
  · rw [if_neg h, List.find?_append]
    have h0 : o.find? (fun p => decide (p.1 = k)) = none := by
      rw [List.find?_eq_none]
      intro x hx hpx
      exact h (List.any_eq_true.mpr ⟨x, hx, hpx⟩)
    rw [h0]
    simp [List.find?]

theorem jsLookup_jsSet_ne (o : List (String × JsValue)) (k1 k : String)
    (v : JsValue) (h : k ≠ k1) : jsLookup (jsSet o k1 v) k = jsLookup o k := by
  unfold jsSet jsLookup
  by_cases ha : o.any (fun p => decide (p.1 = k1))
  · rw [if_pos ha, find?_map_update_ne _ _ _ _ h]
  · rw [if_neg ha, List.find?_append]
    have h1 : ([((k1 : String), v)]).find? (fun p => decide (p.1 = k)) = none := by
      simp [List.find?, Ne.symm h]
    rw [h1]
    cases o.find? fun p => decide (p.1 = k) <;> rfl

theorem jsLookup_applyMeta_notmem (md : List (String × String)) :
    ∀ (base : List (String × JsValue)) (k : String),
      (∀ p ∈ md, p.1 ≠ k) →
      jsLookup (applyMeta base md) k = jsLookup base k := by
  induction md with
  | nil => intro base k _; rfl
  | cons a t ih =>
    intro base k h
    have hstep : applyMeta base (a :: t) =
        applyMeta (jsSet base a.1 (.str a.2)) t := rfl
    rw [hstep, ih _ k (fun p hp => h p (List.mem_cons_of_mem a hp))]
    exact jsLookup_jsSet_ne _ _ _ _
      (fun e => h a (List.mem_cons_self a t) e.symm)

theorem jsLookup_applyMeta_mem (md : List (String × String)) :
    ∀ (base : List (String × JsValue)) (k : String) (v : String),
      (md.map Prod.fst).Nodup → (k, v) ∈ md →
      jsLookup (applyMeta base md) k = .str v := by
  induction md with
  | nil => intro _ _ _ _ hm; simp at hm
  | cons a t ih =>
    intro base k v hnd hm
    have hstep : applyMeta base (a :: t) =
        applyMeta (jsSet base a.1 (.str a.2)) t := rfl
    rcases List.mem_cons.mp hm with he | ht
    · have hknotin : ∀ p ∈ t, p.1 ≠ k := by
        intro p hp e
        have : a.1 ∉ t.map Prod.fst := (List.nodup_cons.mp hnd).1
        exact this (by rw [← he] at *; exact List.mem_map.mpr ⟨p, hp, e⟩)
      rw [hstep, jsLookup_applyMeta_notmem t _ k hknotin, ← he]
      exact jsLookup_jsSet_self base k (.str v)
    · exact hstep ▸ ih _ k v (List.nodup_cons.mp hnd).2 ht

theorem jsLookup_nil (k : String) : jsLookup [] k = .undefined := rfl

theorem jsLookup_cons_eq (k : String) (v : JsValue)
    (o : List (String × JsValue)) : jsLookup ((k, v) :: o) k = v := by
  unfold jsLookup
  rw [List.find?_cons_of_pos _ (by simp)]

theorem jsLookup_cons_ne (k1 : String) (v : JsValue)
    (o : List (String × JsValue)) (k : String) (h : ¬k1 = k) :
    jsLookup ((k1, v) :: o) k = jsLookup o k := by
  unfold jsLookup
  rw [List.find?_cons_of_neg _ (by simpa using h)]

theorem lookupStr_some_mem (md : List (String × String)) (k v : String)
    (h : lookupStr md k = some v) : (k, v) ∈ md := by
  unfold lookupStr at h
  cases hf : md.find? (fun p => decide (p.1 = k)) with
  | none => rw [hf] at h; cases h
  | some p =>
    rw [hf] at h
    have hp1 : p.1 = k := by simpa using List.find?_some hf
    have hp2 : p.2 = v := by simpa using h
    have hmem := List.mem_of_find?_eq_some hf
    have hpe : p = (k, v) := by
      cases p
      simp_all
    rw [← hpe]
    exact hmem

theorem lookupStr_none_keys (md : List (String × String)) (k : String)
    (h : lookupStr md k = none) : ∀ p ∈ md, p.1 ≠ k := by
  unfold lookupStr at h
  have hf : md.find? (fun p => decide (p.1 = k)) = none := by
    cases hf : md.find? (fun p => decide (p.1 = k)) with
    | none => rfl
    | some p => rw [hf] at h; cases h
  intro p hp
  simpa using List.find?_eq_none.mp hf p hp

theorem passthrough_keys_ne (md : List (String × String)) (k : String)
    (h : ∀ p ∈ md, p.1 ≠ k) :
    ∀ p ∈ md.filter (fun p => !(decide (p.1 = "customerName"))), p.1 ≠ k :=
  fun p hp => h p (List.mem_of_mem_filter hp)

theorem passthrough_keys_ne_customerName (md : List (String × String)) :
    ∀ p ∈ md.filter (fun p => !(decide (p.1 = "customerName"))),
      p.1 ≠ "customerName" := by
  intro p hp
  have := (List.mem_filter.mp hp).2
  simpa using this

theorem passthrough_nodup (md : List (String × String))
    (hnd : (md.map Prod.fst).Nodup) :
    (((md.filter (fun p => !(decide (p.1 = "customerName")))).map
      Prod.fst)).Nodup :=
  hnd.sublist ((List.filter_sublist md).map Prod.fst)

theorem passthrough_mem (md : List (String × String)) (k v : String)
    (hk : k ≠ "customerName") (hm : (k, v) ∈ md) :
    (k, v) ∈ md.filter (fun p => !(decide (p.1 = "customerName"))) := by
  apply List.mem_filter.mpr
  exact ⟨hm, by simpa using hk⟩

theorem mkFormData_timestamp (md : List (String × String))
    (cd : CustomerDetails) (session : CheckoutSession) (now : String)
    (h : ∀ p ∈ md, p.1 ≠ "timestamp") :
    jsLookup (mkFormData md cd session now) "timestamp" = .str now := by
  unfold mkFormData
  rw [jsLookup_applyMeta_notmem _ _ _ (passthrough_keys_ne md _ h)]
  rw [jsLookup_cons_ne "name" _ _ "timestamp" (by decide),
    jsLookup_cons_ne "email" _ _ "timestamp" (by decide),
    jsLookup_cons_ne "paymentStatus" _ _ "timestamp" (by decide),
    jsLookup_cons_ne "paymentId" _ _ "timestamp" (by decide),
    jsLookup_cons_ne "paymentAmount" _ _ "timestamp" (by decide),
    jsLookup_cons_eq]

theorem mkFormData_name (md : List (String × String)) (cd : CustomerDetails)
    (session : CheckoutSession) (now : String) (nm : String)
    (h : ∀ p ∈ md, p.1 ≠ "name")
    (hnm : lookupStr md "customerName" = some nm) :
    jsLookup (mkFormData md cd session now) "name" = .str nm := by
  unfold mkFormData
  rw [jsLookup_applyMeta_notmem _ _ _ (passthrough_keys_ne md _ h), hnm,
    jsLookup_cons_eq]

theorem mkFormData_email (md : List (String × String)) (cd : CustomerDetails)
    (session : CheckoutSession) (now : String)
    (h : ∀ p ∈ md, p.1 ≠ "email") :
    jsLookup (mkFormData md cd session now) "email" = cd.email := by
  unfold mkFormData
  rw [jsLookup_applyMeta_notmem _ _ _ (passthrough_keys_ne md _ h)]
  rw [jsLookup_cons_ne "name" _ _ "email" (by decide),
    jsLookup_cons_eq]

theorem mkFormData_paymentStatus (md : List (String × String))
    (cd : CustomerDetails) (session : CheckoutSession) (now : String)
    (h : ∀ p ∈ md, p.1 ≠ "paymentStatus") :
    jsLookup (mkFormData md cd session now) "paymentStatus" =
      .str "completed" := by
  unfold mkFormData
  rw [jsLookup_applyMeta_notmem _ _ _ (passthrough_keys_ne md _ h)]
  rw [jsLookup_cons_ne "name" _ _ "paymentStatus" (by decide),
    jsLookup_cons_ne "email" _ _ "paymentStatus" (by decide),
    jsLookup_cons_eq]

theorem mkFormData_paymentId (md : List (String × String))
    (cd : CustomerDetails) (session : CheckoutSession) (now : String)
    (h : ∀ p ∈ md, p.1 ≠ "paymentId") :
    jsLookup (mkFormData md cd session now) "paymentId" =
      .str session.payment_intent := by
  unfold mkFormData
  rw [jsLookup_applyMeta_notmem _ _ _ (passthrough_keys_ne md _ h)]
  rw [jsLookup_cons_ne "name" _ _ "paymentId" (by decide),
    jsLookup_cons_ne "email" _ _ "paymentId" (by decide),
    jsLookup_cons_ne "paymentStatus" _ _ "paymentId" (by decide),
    jsLookup_cons_eq]

theorem mkFormData_paymentAmount (md : List (String × String))
    (cd : CustomerDetails) (session : CheckoutSession) (now : String)
    (h : ∀ p ∈ md, p.1 ≠ "paymentAmount") :
    jsLookup (mkFormData md cd session now) "paymentAmount" =
      .num ((session.amount_total : Rat) / 100) := by
  unfold mkFormData
  rw [jsLookup_applyMeta_notmem _ _ _ (passthrough_keys_ne md _ h)]
  rw [jsLookup_cons_ne "name" _ _ "paymentAmount" (by decide),
    jsLookup_cons_ne "email" _ _ "paymentAmount" (by decide),
    jsLookup_cons_ne "paymentStatus" _ _ "paymentAmount" (by decide),
    jsLookup_cons_ne "paymentId" _ _ "paymentAmount" (by decide),
    jsLookup_cons_eq]

theorem mkFormData_customerName_absent (md : List (String × String))
    (cd : CustomerDetails) (session : CheckoutSession) (now : String) :
    jsLookup (mkFormData md cd session now) "customerName" = .undefined := by
  unfold mkFormData
  rw [jsLookup_applyMeta_notmem _ _ _ (passthrough_keys_ne_customerName md)]
  rw [jsLookup_cons_ne "name" _ _ "customerName" (by decide),
    jsLookup_cons_ne "email" _ _ "customerName" (by decide),
    jsLookup_cons_ne "paymentStatus" _ _ "customerName" (by decide),
    jsLookup_cons_ne "paymentId" _ _ "customerName" (by decide),
    jsLookup_cons_ne "paymentAmount" _ _ "customerName" (by decide),
    jsLookup_cons_ne "timestamp" _ _ "customerName" (by decide),
    jsLookup_nil]

theorem mkFormData_meta (md : List (String × String)) (cd : CustomerDetails)
    (session : CheckoutSession) (now : String) (k v : String)
    (hnd : (md.map Prod.fst).Nodup) (hk : k ≠ "customerName")
    (hm : (k, v) ∈ md) :
    jsLookup (mkFormData md cd session now) k = .str v := by
  unfold mkFormData
  exact jsLookup_applyMeta_mem _ _ _ _ (passthrough_nodup md hnd)
    (passthrough_mem md k v hk hm)

theorem mkFormData_passthrough (md : List (String × String))
    (cd : CustomerDetails) (session : CheckoutSession) (now : String)
    (k : String) (hnd : (md.map Prod.fst).Nodup) (hkc : k ≠ "customerName")
    (h1 : ¬k = "name") (h2 : ¬k = "email") (h3 : ¬k = "paymentStatus")
    (h4 : ¬k = "paymentId") (h5 : ¬k = "paymentAmount")
    (h6 : ¬k = "timestamp") :
    jsLookup (mkFormData md cd session now) k =
      (match lookupStr md k with
       | some v => JsValue.str v
       | none => JsValue.undefined) := by
  cases hl : lookupStr md k with
  | some v =>
    exact mkFormData_meta md cd session now k v hnd hkc
      (lookupStr_some_mem md k v hl)
  | none =>
    have hkeys := lookupStr_none_keys md k hl
    unfold mkFormData
    rw [jsLookup_applyMeta_notmem _ _ _ (passthrough_keys_ne md _ hkeys)]
    rw [jsLookup_cons_ne "name" _ _ k (fun e => h1 e.symm),
      jsLookup_cons_ne "email" _ _ k (fun e => h2 e.symm),
      jsLookup_cons_ne "paymentStatus" _ _ k (fun e => h3 e.symm),
      jsLookup_cons_ne "paymentId" _ _ k (fun e => h4 e.symm),
      jsLookup_cons_ne "paymentAmount" _ _ k (fun e => h5 e.symm),
      jsLookup_cons_ne "timestamp" _ _ k (fun e => h6 e.symm),
      jsLookup_nil]

/-- C1: when signature verification fails with message `errMsg`, the
webhook endpoint responds 400 with the error message in the body, and the
payload is not processed further: the sink receives zero calls. -/
theorem C1_verify_failure_rejected_400_no_processing (errMsg now : String)
    (sink : List (String × JsValue) → Except String Unit) :
    (webhookHandler (.error errMsg) sink now).1 =
        .rejected ("Webhook Error: " ++ errMsg) ∧
      ((webhookHandler (.error errMsg) sink now).1).statusCode = some 400 ∧
      (webhookHandler (.error errMsg) sink now).2 = [] :=
  ⟨rfl, rfl, rfl⟩

/-- C2 (amended): a verified delivery is acknowledged with 200
`{received:true}` regardless of the event type and regardless of whether
the sink write throws, provided that a `checkout.session.completed` event
carries its `metadata` object and `customer_details` structure; when
either is absent, the normalization itself throws and no 200 is sent
(see the counterexample). -/
theorem C2_verified_wellformed_acknowledged (e : StripeEvent) (now : String)
    (sink : List (String × JsValue) → Except String Unit)
    (h : e.type = "checkout.session.completed" →
      e.data.object.metadata ≠ none ∧ e.data.object.customer_details ≠ none) :
    (webhookHandler (.ok e) sink now).1 = .acknowledged := by
  dsimp only [webhookHandler]
  by_cases ht : e.type = "checkout.session.completed"
  · rw [if_pos ht]
    obtain ⟨hm, hc⟩ := h ht
    cases hmd : e.data.object.metadata with
    | none => exact absurd hmd hm
    | some md =>
      cases hcd : e.data.object.customer_details with
      | none => exact absurd hcd hc
      | some cd =>
        cases hs : sink (mkFormData md cd e.data.object now) <;> simp [hs]
  · rw [if_neg ht]

theorem C2_verified_wellformed_acknowledged_witness :
    (webhookHandler
      (.ok ⟨"checkout.session.completed",
        ⟨⟨some [("customerName", "Ann"), ("notes", "vip")],
          some ⟨.str "ann@x.com"⟩, "pi_1", 5000⟩⟩⟩)
      (fun _ => .error "sheet write failed") "2024-01-01T00:00:00Z").1 =
      .acknowledged :=
  C2_verified_wellformed_acknowledged _ _ _
    (fun _ => ⟨Option.some_ne_none _, Option.some_ne_none _⟩)

/-- C2 (counterexample): a verified `checkout.session.completed` event
whose `customer_details` structure is absent makes the handler throw
before the acknowledgment: the outcome is a crash, not the claimed
200 `{received:true}`. -/
theorem C2_verified_malformed_not_acknowledged :
    (webhookHandler
      (.ok ⟨"checkout.session.completed",
        ⟨⟨some [("customerName", "Ann")], none, "pi_9", 2999⟩⟩⟩)
      (fun _ => .ok ()) "2024-01-01T00:00:00Z").1 ≠ .acknowledged ∧
    ((webhookHandler
      (.ok ⟨"checkout.session.completed",
        ⟨⟨some [("customerName", "Ann")], none, "pi_9", 2999⟩⟩⟩)
      (fun _ => .ok ()) "2024-01-01T00:00:00Z").1).statusCode = none := by
  constructor
  · intro h
    cases h
  · rfl

/-- C5: the claim says a verified `checkout.session.completed` event with
a missing customer-details structure is treated as a logged processing
failure and still answered 200 `{received:true}`.  The code instead
dereferences `session.customer_details.email` outside every try/catch, so
the handler throws and produces no response at all: the outcome is a
crash. -/
theorem C5_missing_customer_details_crashes :
    (webhookHandler
      (.ok ⟨"checkout.session.completed",
        ⟨⟨some [("customerName", "Bea"), ("goals", "tone")], none,
          "pi_5", 1250⟩⟩⟩)
      (fun _ => .ok ()) "2025-03-04T05:06:07Z").1 = .crashed := rfl

/-- C6: the sink is never invoked unless verification succeeded and the
verified event's type is `checkout.session.completed`: whenever the sink
call list is nonempty, the delivery was verified into such an event.  In
particular a rejected delivery (tampered body / wrong signature) and a
verified event of any other kind produce zero sink calls. -/
theorem C6_sink_only_for_verified_completed
    (v : Except String StripeEvent)
    (sink : List (String × JsValue) → Except String Unit) (now : String)
    (h : (webhookHandler v sink now).2 ≠ []) :
    ∃ e : StripeEvent, v = .ok e ∧
      e.type = "checkout.session.completed" := by
  match v with
  | .error m => exact absurd rfl h
  | .ok e =>
    refine ⟨e, rfl, ?_⟩
    by_cases ht : e.type = "checkout.session.completed"
    · exact ht
    · exfalso
      apply h
      dsimp only [webhookHandler]
      rw [if_neg ht]

theorem C6_sink_only_for_verified_completed_witness :
    ∃ e : StripeEvent,
      (Except.ok (⟨"checkout.session.completed",
        ⟨⟨some [("customerName", "Cy")], some ⟨.str "cy@x.com"⟩,
          "pi_2", 100⟩⟩⟩ : StripeEvent) :
        Except String StripeEvent) = .ok e ∧
      e.type = "checkout.session.completed" :=
  C6_sink_only_for_verified_completed _ (fun _ => .ok ())
    "2024-05-05T00:00:00Z" (by decide)

/-- C3 (amended): for a verified `checkout.session.completed` event whose
metadata has pairwise-distinct keys, carries the reserved key
`customerName`, and does not itself contain a key named `name`, the
record's `name` equals the reserved metadata value, the reserved key is
absent from the record, and every other metadata pair appears in the
record unchanged.  Without the no-`name`-key proviso the first conjunct
fails, because the metadata spread overrides the computed `name` field
(see the counterexample). -/
theorem C3_record_name_and_passthrough (md : List (String × String))
    (cd : CustomerDetails) (session : CheckoutSession) (now : String)
    (nm : String) (hnd : (md.map Prod.fst).Nodup)
    (hnm : lookupStr md "customerName" = some nm)
    (hname : ∀ p ∈ md, p.1 ≠ "name") :
    jsLookup (mkFormData md cd session now) "name" = .str nm ∧
    jsLookup (mkFormData md cd session now) "customerName" = .undefined ∧
    ∀ p ∈ md, p.1 ≠ "customerName" →
      jsLookup (mkFormData md cd session now) p.1 = .str p.2 := by
  refine ⟨mkFormData_name md cd session now nm hname hnm,
    mkFormData_customerName_absent md cd session now, ?_⟩
  intro p hp hpk
  exact mkFormData_meta md cd session now p.1 p.2 hnd hpk
    (by simpa using hp)

theorem C3_record_name_and_passthrough_witness :
    jsLookup (mkFormData [("customerName", "Ann"), ("notes", "vip")]
      ⟨.str "ann@x.com"⟩ ⟨some [("customerName", "Ann"), ("notes", "vip")],
        some ⟨.str "ann@x.com"⟩, "pi_1", 5000⟩
      "2024-01-01T00:00:00Z") "name" = .str "Ann" ∧
    jsLookup (mkFormData [("customerName", "Ann"), ("notes", "vip")]
      ⟨.str "ann@x.com"⟩ ⟨some [("customerName", "Ann"), ("notes", "vip")],
        some ⟨.str "ann@x.com"⟩, "pi_1", 5000⟩
      "2024-01-01T00:00:00Z") "customerName" = .undefined ∧
    ∀ p ∈ [("customerName", "Ann"), ("notes", "vip")],
      p.1 ≠ "customerName" →
      jsLookup (mkFormData [("customerName", "Ann"), ("notes", "vip")]
        ⟨.str "ann@x.com"⟩ ⟨some [("customerName", "Ann"), ("notes", "vip")],
          some ⟨.str "ann@x.com"⟩, "pi_1", 5000⟩
        "2024-01-01T00:00:00Z") p.1 = .str p.2 :=
  C3_record_name_and_passthrough _ _ _ _ _ (by decide) (by decide) (by decide)

/-- C3 (counterexample): when the metadata itself contains a key `name`,
the spread overrides the computed `name` field: here `customerName` is
`"Ann"` but the record's `name` is `"Bob"`, refuting the claim that the
record's `name` always equals the reserved metadata value. -/
theorem C3_record_name_overridden :
    jsLookup (mkFormData [("customerName", "Ann"), ("name", "Bob")]
      ⟨.str "ann@x.com"⟩ ⟨some [("customerName", "Ann"), ("name", "Bob")],
        some ⟨.str "ann@x.com"⟩, "pi_3", 2999⟩
      "2024-02-02T00:00:00Z") "name" = .str "Bob" ∧
    lookupStr [("customerName", "Ann"), ("name", "Bob")] "customerName" =
      some "Ann" ∧
    (JsValue.str "Bob" ≠ .str "Ann") := by decide

/-- C10: a metadata pair whose key (other than the reserved
`customerName`) coincides with one of the six fixed record fields wins:
the metadata value, spread after the fixed fields, is what the record
holds at that key. -/
theorem C10_metadata_overrides_fixed_field (md : List (String × String))
    (cd : CustomerDetails) (session : CheckoutSession) (now : String)
    (k v : String) (hnd : (md.map Prod.fst).Nodup)
    (hkc : k ≠ "customerName") (hfix : k ∈ fixedFieldNames)
    (hm : (k, v) ∈ md) :
    jsLookup (mkFormData md cd session now) k = .str v :=
  mkFormData_meta md cd session now k v hnd hkc hm

theorem C10_metadata_overrides_fixed_field_witness :
    jsLookup (mkFormData [("customerName", "Ann"), ("email", "evil@x.com")]
      ⟨.str "real@x.com"⟩
      ⟨some [("customerName", "Ann"), ("email", "evil@x.com")],
        some ⟨.str "real@x.com"⟩, "pi_4", 700⟩
      "2024-03-03T00:00:00Z") "email" = .str "evil@x.com" :=
  C10_metadata_overrides_fixed_field _ _ _ _ "email" "evil@x.com"
    (by decide) (by decide) (by decide) (by decide)

/-- C7 (amended): when the three required fields are present and truthy
(nonempty strings, nonzero price), the session-creation endpoint never
responds 400, and whenever the provider call succeeds the response is
200 with the provider's `checkoutUrl`.  A present-but-falsy field (e.g. a
price of 0) is rejected with 400 by the truthiness check (see the
counterexample), and a provider failure yields 500 without a URL. -/
theorem C7_truthy_fields_no_400_url (pn pp ce : JsValue)
    (provider : Except String String)
    (h1 : truthy pn = true) (h2 : truthy pp = true)
    (h3 : truthy ce = true) :
    (createCheckoutSession pn pp ce provider).1.statusCode ≠ 400 ∧
    ∀ url, provider = .ok url →
      (createCheckoutSession pn pp ce provider).1 = .okUrl url := by
  unfold createCheckoutSession
  rw [h1, h2, h3]
  constructor
  · cases provider <;> simp [SessionResponse.statusCode]
  · intro url hu
    rw [hu]
    simp

theorem C7_truthy_fields_no_400_url_witness :
    (createCheckoutSession (.str "Widget") (.num 2999) (.str "a@x.com")
      (.ok "https://checkout.test/s1")).1.statusCode ≠ 400 ∧
    ∀ url, (Except.ok "https://checkout.test/s1" :
        Except String String) = .ok url →
      (createCheckoutSession (.str "Widget") (.num 2999) (.str "a@x.com")
        (.ok "https://checkout.test/s1")).1 = .okUrl url :=
  C7_truthy_fields_no_400_url _ _ _ _ (by decide) (by decide) (by decide)

/-- C7 (counterexample): a request in which all three required fields are
present, but `productPrice` is the (falsy) number 0, is answered 400 even
though the claim says presence of the three fields rules a 400 out. -/
theorem C7_present_falsy_price_400 :
    (JsValue.num 0 ≠ .undefined) ∧
    (createCheckoutSession (.str "Widget") (.num 0) (.str "a@x.com")
      (.ok "https://checkout.test/s1")).1.statusCode = 400 ∧
    (createCheckoutSession (.str "Widget") (.num 0) (.str "a@x.com")
      (.ok "https://checkout.test/s1")).1.checkoutUrlField = none := by
  refine ⟨by decide, rfl, rfl⟩

/-- C8: a session-creation request missing any of `productName`,
`productPrice`, `customerEmail` (the field is `undefined`) is answered
400 and the payment provider is never called. -/
theorem C8_missing_field_400_no_provider_call (pn pp ce : JsValue)
    (provider : Except String String)
    (h : pn = .undefined ∨ pp = .undefined ∨ ce = .undefined) :
    (createCheckoutSession pn pp ce provider).1.statusCode = 400 ∧
    (createCheckoutSession pn pp ce provider).2 = false := by
  have hcond : (!(truthy pn) || !(truthy pp) || !(truthy ce)) = true := by
    rcases h with h | h | h <;> rw [h] <;> simp [truthy]
  unfold createCheckoutSession
  rw [hcond]
  exact ⟨rfl, rfl⟩

theorem C8_missing_field_400_no_provider_call_witness :
    (createCheckoutSession (.str "Widget") (.num 2999) .undefined
      (.ok "https://checkout.test/s1")).1.statusCode = 400 ∧
    (createCheckoutSession (.str "Widget") (.num 2999) .undefined
      (.ok "https://checkout.test/s1")).2 = false :=
  C8_missing_field_400_no_provider_call _ _ _ _ (Or.inr (Or.inr rfl))

/-- C9 (amended): for a record produced from a verified completed event
whose metadata keys are pairwise distinct, avoid the six fixed field
names, and include the reserved `customerName`, the appended row is the
fixed 13-column layout: timestamp, name, email, paymentStatus, paymentId,
paymentAmount, then the seven hard-coded fields preferences, notes, age,
primaryConcern, additionalConcerns, goals, photoCount (each `''` when
absent or falsy).  Pass-through metadata fields outside those seven are
not part of the row (see the counterexample). -/
theorem C9_row_fixed_layout (md : List (String × String))
    (cd : CustomerDetails) (session : CheckoutSession) (now : String)
    (nm : String) (hnd : (md.map Prod.fst).Nodup)
    (hnm : lookupStr md "customerName" = some nm)
    (hfix : ∀ p ∈ md, p.1 ∉ fixedFieldNames) :
    storeRow (mkFormData md cd session now) =
      [.str now, .str nm, cd.email, .str "completed",
       .str session.payment_intent,
       .num ((session.amount_total : Rat) / 100),
       metaCol md "preferences", metaCol md "notes", metaCol md "age",
       metaCol md "primaryConcern", metaCol md "additionalConcerns",
       metaCol md "goals", metaCol md "photoCount"] := by
  have hn : ∀ key, key ∈ fixedFieldNames → ∀ p ∈ md, p.1 ≠ key :=
    fun key hkey p hp e => hfix p hp (e ▸ hkey)
  unfold storeRow metaCol
  rw [mkFormData_timestamp md cd session now (hn "timestamp" (by decide)),
    mkFormData_name md cd session now nm (hn "name" (by decide)) hnm,
    mkFormData_email md cd session now (hn "email" (by decide)),
    mkFormData_paymentStatus md cd session now (hn "paymentStatus" (by decide)),
    mkFormData_paymentId md cd session now (hn "paymentId" (by decide)),
    mkFormData_paymentAmount md cd session now (hn "paymentAmount" (by decide)),
    mkFormData_passthrough md cd session now "preferences" hnd (by decide)
      (by decide) (by decide) (by decide) (by decide) (by decide) (by decide),
    mkFormData_passthrough md cd session now "notes" hnd (by decide)
      (by decide) (by decide) (by decide) (by decide) (by decide) (by decide),
    mkFormData_passthrough md cd session now "age" hnd (by decide)
      (by decide) (by decide) (by decide) (by decide) (by decide) (by decide),
    mkFormData_passthrough md cd session now "primaryConcern" hnd (by decide)
      (by decide) (by decide) (by decide) (by decide) (by decide) (by decide),
    mkFormData_passthrough md cd session now "additionalConcerns" hnd
      (by decide) (by decide) (by decide) (by decide) (by decide) (by decide)
      (by decide),
    mkFormData_passthrough md cd session now "goals" hnd (by decide)
      (by decide) (by decide) (by decide) (by decide) (by decide) (by decide),
    mkFormData_passthrough md cd session now "photoCount" hnd (by decide)
      (by decide) (by decide) (by decide) (by decide) (by decide) (by decide)]

theorem C9_row_fixed_layout_witness :
    storeRow (mkFormData [("customerName", "Ann"), ("notes", "vip")]
      ⟨.str "ann@x.com"⟩ ⟨some [("customerName", "Ann"), ("notes", "vip")],
        some ⟨.str "ann@x.com"⟩, "pi_1", 5000⟩ "2024-01-01T00:00:00Z") =
      [.str "2024-01-01T00:00:00Z", .str "Ann", .str "ann@x.com",
       .str "completed", .str "pi_1", .num ((5000 : Rat) / 100),
       metaCol [("customerName", "Ann"), ("notes", "vip")] "preferences",
       metaCol [("customerName", "Ann"), ("notes", "vip")] "notes",
       metaCol [("customerName", "Ann"), ("notes", "vip")] "age",
       metaCol [("customerName", "Ann"), ("notes", "vip")] "primaryConcern",
       metaCol [("customerName", "Ann"), ("notes", "vip")]
         "additionalConcerns",
       metaCol [("customerName", "Ann"), ("notes", "vip")] "goals",
       metaCol [("customerName", "Ann"), ("notes", "vip")] "photoCount"] :=
  C9_row_fixed_layout _ _ _ _ _ (by decide) (by decide) (by decide)

/-- C9 (counterexample): a pass-through metadata field whose key is not
one of the seven hard-coded ones (`vipLevel` here) is carried by the
record but its value never appears in the appended row, refuting "the row
includes every pass-through metadata field of the record". -/
theorem C9_row_drops_unknown_passthrough :
    jsLookup (mkFormData [("customerName", "Ann"), ("vipLevel", "gold")]
      ⟨.str "ann@x.com"⟩
      ⟨some [("customerName", "Ann"), ("vipLevel", "gold")],
        some ⟨.str "ann@x.com"⟩, "pi_7", 5000⟩
      "2024-06-06T00:00:00Z") "vipLevel" = .str "gold" ∧
    (JsValue.str "gold") ∉
      storeRow (mkFormData [("customerName", "Ann"), ("vipLevel", "gold")]
        ⟨.str "ann@x.com"⟩
        ⟨some [("customerName", "Ann"), ("vipLevel", "gold")],
          some ⟨.str "ann@x.com"⟩, "pi_7", 5000⟩
        "2024-06-06T00:00:00Z") := by decide
